import Mathlib

/-
Shallow embedding of the AptLearn backend (src/main.py, src/schemas.py).

The MongoDB document store is modelled as a `Store` record holding one list
per collection, in insertion order (Mongo's natural order for these
collections, which is what `find` iterates).  `find_one(filter)` is
`List.find?`, `insert_one`/`insert_many` append, and `update_one` by the
`_id` of a record previously returned by `find_one` replaces the first
matching record in place.  Mongo ObjectIds are modelled by a `Nat` counter
in the store; `str(id)` is `toString`.  Timestamp fields (`created_at`,
`updated_at`) carry no behaviour in the code and are omitted; the one
behaviourally visible time value (the certificate's `issued_at` string) is
passed to `submit_attempt` as an explicit `now` argument.  Python's float
comparison `(score / total) >= 0.6` is embedded as the exact rational
comparison (for the totals reachable here the two agree).
-/

namespace AptLearn

/-- A document of the `module` collection (schemas.Module). -/
structure ModuleRec where
  key : String
  title : String
  order : Nat
  deriving DecidableEq

/-- A document of the `day` collection (schemas.Day). -/
structure DayRec where
  day_number : Int
  module_key : String
  title : String
  video_url : String
  notes : String
  deriving DecidableEq

/-- A document of the `question` collection (schemas.Question). -/
structure Question where
  day_number : Int
  prompt : String
  options : List String
  answer_index : Nat
  deriving DecidableEq

/-- A document of the `user` collection: the stored Mongo `_id` plus
schemas.User's fields. -/
structure UserRec where
  id : Nat
  name : String
  email : String
  deriving DecidableEq

/-- A document of the `progress` collection (schemas.Progress). -/
structure ProgressRec where
  user_id : String
  completed_days : List Int
  deriving DecidableEq

/-- A document of the `attempt` collection (schemas.Attempt). -/
structure AttemptRec where
  user_id : String
  day_number : Int
  answers : List Int
  score : Nat
  total : Nat
  violations : Int
  flagged : Bool
  deriving DecidableEq

/-- A document of the `certificate` collection (schemas.Certificate). -/
structure CertificateRec where
  user_id : String
  name : String
  issued_at : String
  svg : String
  deriving DecidableEq

/-- The whole document store: the seven collections named in main.py, plus
the ObjectId generator for new users. -/
structure Store where
  modules : List ModuleRec
  days : List DayRec
  questions : List Question
  users : List UserRec
  progress : List ProgressRec
  attempts : List AttemptRec
  certificates : List CertificateRec
  nextId : Nat
  deriving DecidableEq

/-- A raised fastapi.HTTPException. -/
structure HTTPError where
  status_code : Nat
  detail : String
  deriving DecidableEq

/-- The store with every collection empty. -/
def emptyStore : Store := ⟨[], [], [], [], [], [], [], 0⟩

/-! ### Seeding (main.py, seed_data) -/

/-- The three seed modules (main.py lines 39-43). -/
def seedModules : List ModuleRec :=
  [⟨"aptitude", "Aptitude", 1⟩, ⟨"technical", "Technical", 2⟩, ⟨"hr", "HR", 3⟩]

/-- Module key for seeded day `d`: 1-5 aptitude, 6-10 technical, 11-15 HR. -/
def dayModuleKey (d : Nat) : String :=
  if d ≤ 5 then "aptitude" else if d ≤ 10 then "technical" else "hr"

/-- Title for seeded day `d` (main.py lines 51-59). -/
def dayTitle (d : Nat) : String :=
  if d ≤ 5 then s!"Aptitude Day {d}"
  else if d ≤ 10 then
    let n := d - 5
    s!"Technical Day {n}"
  else
    let n := d - 10
    s!"HR Day {n}"

/-- The seeded `day` document for day `d` (main.py lines 61-69). -/
def seedDay (d : Nat) : DayRec :=
  let t := dayTitle d
  { day_number := (d : Int)
    module_key := dayModuleKey d
    title := t
    video_url := "https://www.youtube.com/embed/dQw4w9WgXcQ"
    notes := s!"Concise notes for {t}. Key concepts, examples, and tips." }

/-- The 5 seeded questions for day `d`; Python iterates `i` over 1..5 with
`answer_index = (i - 1) % 4`, here `i` runs over 0..4 (main.py lines 73-85). -/
def seedQuestionsFor (d : Nat) : List Question :=
  (List.range 5).map fun i =>
    let n := i + 1
    { day_number := (d : Int)
      prompt := s!"Question {n} for Day {d}: Choose the correct option."
      options := ["Option A", "Option B", "Option C", "Option D"]
      answer_index := i % 4 }

/-- main.py seed_data: no-op when the module collection is non-empty,
otherwise insert 3 modules, 15 days and their 75 questions. -/
def seed_data (s : Store) : Store :=
  if s.modules.length > 0 then s
  else
    { s with
      modules := s.modules ++ seedModules
      days := s.days ++ (List.range 15).map (fun d => seedDay (d + 1))
      questions :=
        s.questions ++ (List.range 15).flatMap (fun d => seedQuestionsFor (d + 1)) }

/-! ### Certificate SVG (main.py, generate_certificate_svg) -/

/-- main.py generate_certificate_svg: the fixed 1200x850 SVG with the
resolved name and the issuance date interpolated. -/
def generate_certificate_svg (name : String) (date_str : String) : String :=
  "<svg xmlns=\"http://www.w3.org/2000/svg\" width=\"1200\" height=\"850\">\n" ++
  "  <defs>\n" ++
  "    <linearGradient id=\"g\" x1=\"0\" y1=\"0\" x2=\"1\" y2=\"1\">\n" ++
  "      <stop offset=\"0%\" stop-color=\"#1e3a8a\"/>\n" ++
  "      <stop offset=\"100%\" stop-color=\"#0ea5e9\"/>\n" ++
  "    </linearGradient>\n" ++
  "  </defs>\n" ++
  "  <rect width=\"100%\" height=\"100%\" fill=\"#0b1220\"/>\n" ++
  "  <rect x=\"40\" y=\"40\" width=\"1120\" height=\"770\" rx=\"24\" fill=\"none\" stroke=\"url(#g)\" stroke-width=\"6\"/>\n" ++
  "  <text x=\"600\" y=\"160\" text-anchor=\"middle\" fill=\"#e2e8f0\" font-size=\"42\" font-family=\"Inter, sans-serif\">Certificate of Completion</text>\n" ++
  "  <text x=\"600\" y=\"300\" text-anchor=\"middle\" fill=\"#93c5fd\" font-size=\"28\" font-family=\"Inter, sans-serif\">This certifies that</text>\n" ++
  "  <text x=\"600\" y=\"380\" text-anchor=\"middle\" fill=\"#f8fafc\" font-size=\"56\" font-weight=\"700\" font-family=\"Inter, sans-serif\">" ++ name ++ "</text>\n" ++
  "  <text x=\"600\" y=\"460\" text-anchor=\"middle\" fill=\"#cbd5e1\" font-size=\"24\" font-family=\"Inter, sans-serif\">has successfully completed the</text>\n" ++
  "  <text x=\"600\" y=\"505\" text-anchor=\"middle\" fill=\"#cbd5e1\" font-size=\"28\" font-family=\"Inter, sans-serif\">AptLearn – 15-Day Interview Preparation Challenge</text>\n" ++
  "  <text x=\"600\" y=\"590\" text-anchor=\"middle\" fill=\"#93c5fd\" font-size=\"20\" font-family=\"Inter, sans-serif\">Issued on " ++ date_str ++ "</text>\n" ++
  "  <circle cx=\"600\" cy=\"690\" r=\"36\" fill=\"url(#g)\"/>\n" ++
  "  <text x=\"600\" y=\"700\" text-anchor=\"middle\" fill=\"#0b1220\" font-size=\"24\" font-weight=\"700\" font-family=\"Inter, sans-serif\">AL</text>\n" ++
  "</svg>"

/-! ### POST /users (main.py, create_or_get_user) -/

/-- The JSON body returned by POST /users. -/
structure UserOut where
  id : String
  name : String
  email : String
  deriving DecidableEq

/-- main.py create_or_get_user: look up by email; if found return the stored
identity, else insert a user and an empty progress record for it. -/
def create_or_get_user (s : Store) (name email : String) : Store × UserOut :=
  match s.users.find? (fun u => u.email == email) with
  | some existing => (s, ⟨toString existing.id, existing.name, existing.email⟩)
  | none =>
    let uid := s.nextId
    ({ s with
        users := s.users ++ [⟨uid, name, email⟩]
        progress := s.progress ++ [⟨toString uid, []⟩]
        nextId := uid + 1 },
     ⟨toString uid, name, email⟩)

/-! ### GET /quiz/{day_number} (main.py, get_quiz) -/

/-- A question as returned by GET /quiz: `answer_index` has been popped. -/
structure PublicQuestion where
  day_number : Int
  prompt : String
  options : List String
  deriving DecidableEq

/-- Drop the `answer_index` field of a question (the `q.pop("answer_index")`
loop of get_quiz). -/
def stripAnswer (q : Question) : PublicQuestion :=
  ⟨q.day_number, q.prompt, q.options⟩

/-- The JSON body returned by GET /quiz/{day_number}. -/
structure QuizOut where
  day_number : Int
  questions : List PublicQuestion
  deriving DecidableEq

/-- main.py get_quiz: 404 when the day has no questions, otherwise all of the
day's questions with answers removed. -/
def get_quiz (s : Store) (day_number : Int) : Except HTTPError QuizOut :=
  let qs := s.questions.filter (fun q => q.day_number == day_number)
  if qs.isEmpty then Except.error ⟨404, "Quiz not found for this day"⟩
  else Except.ok ⟨day_number, qs.map stripAnswer⟩

/-! ### POST /attempt (main.py, submit_attempt) -/

/-- The JSON body of POST /attempt (main.py AttemptIn). -/
structure AttemptIn where
  user_id : String
  day_number : Int
  answers : List Int
  violations : Int
  deriving DecidableEq

/-- The JSON body returned by POST /attempt. -/
structure AttemptOut where
  score : Nat
  total : Nat
  passed : Bool
  flagged : Bool
  violations : Int
  deriving DecidableEq

/-- The `collection("question").find({"day_number": payload.day_number})`
fetch at the top of submit_attempt. -/
def attemptQuestions (s : Store) (day_number : Int) : List Question :=
  s.questions.filter (fun q => q.day_number == day_number)

/-- The scoring loop of submit_attempt: walk the fetched questions in store
order, comparing each with the answer at the same index while one exists. -/
def scoreAnswers : List Question → List Int → Nat
  | [], _ => 0
  | _ :: _, [] => 0
  | q :: qs, a :: rest =>
    (if a == (q.answer_index : Int) then 1 else 0) + scoreAnswers qs rest

/-- The attempt document inserted by submit_attempt (main.py lines 232-243). -/
def attemptDoc (s : Store) (p : AttemptIn) : AttemptRec :=
  { user_id := p.user_id
    day_number := p.day_number
    answers := p.answers
    score := scoreAnswers (attemptQuestions s p.day_number) p.answers
    total := (attemptQuestions s p.day_number).length
    violations := p.violations
    flagged := decide (p.violations > 0) }

/-- Insert one document into the attempt collection. -/
def recordAttempt (s : Store) (doc : AttemptRec) : Store :=
  { s with attempts := s.attempts ++ [doc] }

/-- The passing criterion of submit_attempt (main.py line 246):
`(score / total) >= 0.6 and not flagged`, with the float division embedded
as exact rational division. -/
def passedOf (s : Store) (p : AttemptIn) : Bool :=
  decide ((scoreAnswers (attemptQuestions s p.day_number) p.answers : ℚ) /
        ((attemptQuestions s p.day_number).length : ℚ) ≥ (0.6 : ℚ))
    && !(decide (p.violations > 0))

/-- Replace the completed_days of the first progress record whose user_id
matches: the `update_one({"_id": prog["_id"]}, ...)` write, where `prog` was
returned by `find_one({"user_id": uid})`. -/
def setCompletedFirst : List ProgressRec → String → List Int → List ProgressRec
  | [], _, _ => []
  | pr :: rest, uid, cds =>
    if pr.user_id == uid then { pr with completed_days := cds } :: rest
    else pr :: setCompletedFirst rest uid cds

/-- The `if passed:` block of submit_attempt (main.py lines 249-259): when the
user has a progress record and the day is not yet in it, append the day. -/
def updateProgressIfPassed (s : Store) (uid : String) (dn : Int) (passed : Bool) :
    Store :=
  if passed then
    match s.progress.find? (fun pr => pr.user_id == uid) with
    | some prog =>
      if dn ∈ prog.completed_days then s
      else
        { s with
            progress := setCompletedFirst s.progress uid (prog.completed_days ++ [dn]) }
    | none => s
  else s

/-- Numeric value of a decimal digit character, none for any other char. -/
def digitVal (c : Char) : Option Nat :=
  if 48 ≤ c.toNat ∧ c.toNat ≤ 57 then some (c.toNat - 48) else none

/-- Models the `ObjectId(user_id)` constructor: store-generated ids are the
decimal rendering of the`nextId` counter and parse back to it, while a
malformed id string raises, modelled as `none`. -/
def parseObjectId (uid : String) : Option Nat :=
  uid.data.foldl
    (fun acc c =>
      match acc, digitVal c with
      | some n, some d => some (n * 10 + d)
      | _, _ => none)
    (if uid.data = [] then none else some 0)

/-- The name-resolution block of submit_attempt (main.py lines 267-275):
when `ObjectId(user_id)` raises (`parseObjectId` is none), the code falls
back to `find_one({"email": {"$exists": True}})`, which matches every stored
user record here since all of them carry an email field.  A looked-up record
only supplies the name when Python finds `user_doc.get("name")` truthy,
i.e. the name is non-empty. -/
def resolveCertName (s : Store) (uid : String) : String :=
  match parseObjectId uid with
  | some oid =>
    match s.users.find? (fun u => u.id == oid) with
    | some u => if u.name ≠ "" then u.name else "Participant"
    | none => "Participant"
  | none =>
    match s.users.find? (fun _ => true) with
    | some u => if u.name ≠ "" then u.name else "Participant"
    | none => "Participant"

/-- The certificate block of submit_attempt (main.py lines 261-285): re-read
progress; when 15 or more days are complete and the user has no certificate
yet, resolve the display name and insert one certificate document. -/
def maybeIssueCertificate (s : Store) (uid : String) (now : String) : Store :=
  match s.progress.find? (fun pr => pr.user_id == uid) with
  | some prog =>
    if prog.completed_days.length ≥ 15 then
      match s.certificates.find? (fun c => c.user_id == uid) with
      | some _ => s
      | none =>
        let name := resolveCertName s uid
        { s with
            certificates :=
              s.certificates ++ [⟨uid, name, now, generate_certificate_svg name now⟩] }
    else s
  | none => s

/-- main.py submit_attempt: fetch the day's questions (400 when none), score,
insert the attempt document, update progress on a pass, conditionally issue
the certificate, and return the result body. -/
def submit_attempt (s : Store) (p : AttemptIn) (now : String) :
    Store × Except HTTPError AttemptOut :=
  let qdocs := attemptQuestions s p.day_number
  if qdocs.isEmpty then (s, Except.error ⟨400, "No questions for this day"⟩)
  else
    let doc := attemptDoc s p
    let s1 := recordAttempt s doc
    let s2 := updateProgressIfPassed s1 p.user_id p.day_number (passedOf s p)
    let s3 := maybeIssueCertificate s2 p.user_id now
    (s3, Except.ok ⟨doc.score, doc.total, passedOf s p, doc.flagged, p.violations⟩)

/-- The store after one POST /attempt call. -/
def stepStore (s : Store) (p : AttemptIn) (now : String) : Store :=
  (submit_attempt s p now).1

/-- The store after a sequence of POST /attempt calls, each with its payload
and its wall-clock string. -/
def runAll (s : Store) (calls : List (AttemptIn × String)) : Store :=
  calls.foldl (fun st c => stepStore st c.1 c.2) s

/-- The certificate documents stored for one user. -/
def certsFor (s : Store) (uid : String) : List CertificateRec :=
  s.certificates.filter (fun c => c.user_id == uid)

/-! ### GET /progress/{user_id} (main.py, get_progress) -/

/-- main.py get_progress: the stored record, or the default empty one. -/
def get_progress (s : Store) (user_id : String) : ProgressRec :=
  match s.progress.find? (fun p => p.user_id == user_id) with
  | some prog => prog
  | none => ⟨user_id, []⟩

/-! ### Concrete demonstration values used by the witness theorems -/

/-- A one-question quiz for day 1 whose correct option is index 0. -/
def demoQ : Question := ⟨1, "Q1", ["A", "B"], 0⟩

/-- A registered demo user. -/
def demoUser : UserRec := ⟨0, "Alice", "alice@example.com"⟩

/-- A small store: one question, one registered user with empty progress. -/
def demoStore : Store := ⟨[], [], [demoQ], [demoUser], [⟨"0", []⟩], [], [], 1⟩

/-- Like `demoStore` but with no progress record at all. -/
def demoStoreNoProg : Store := ⟨[], [], [demoQ], [demoUser], [], [], [], 1⟩

/-! ### Helper lemmas -/

/-- The 60%-ratio float test, restated over naturals (valid when the day has
at least one question). -/
theorem ratio_ge_iff (sc n : ℕ) (hn : n ≠ 0) :
    ((sc : ℚ) / (n : ℚ) ≥ (0.6 : ℚ)) ↔ 3 * n ≤ 5 * sc := by
  have hpos : (0 : ℚ) < (n : ℚ) := by exact_mod_cast Nat.pos_of_ne_zero hn
  rw [ge_iff_le, show (0.6 : ℚ) = 3 / 5 by norm_num, div_le_div_iff₀ (by norm_num) hpos]
  rw [mul_comm (sc : ℚ) 5]
  constructor <;> intro h <;> exact_mod_cast h

/-- Kernel-computable form of the passing criterion. -/
theorem passedOf_eq (s : Store) (p : AttemptIn) :
    passedOf s p =
      ((decide ((attemptQuestions s p.day_number).length ≠ 0) &&
        decide (3 * (attemptQuestions s p.day_number).length ≤
                5 * scoreAnswers (attemptQuestions s p.day_number) p.answers)) &&
       !(decide (p.violations > 0))) := by
  unfold passedOf
  by_cases hn : (attemptQuestions s p.day_number).length = 0
  · have he : attemptQuestions s p.day_number = [] := List.length_eq_zero.mp hn
    simp [he, scoreAnswers]
    norm_num
  · congr 1
    rw [show (decide ((attemptQuestions s p.day_number).length ≠ 0)) = true
          by simp [hn]]
    rw [Bool.true_and]
    exact decide_eq_decide.mpr (ratio_ge_iff _ _ hn)

/-- Two questions that agree on everything except possibly `answer_index`. -/
def sameButAnswer (q q' : Question) : Prop :=
  q.day_number = q'.day_number ∧ q.prompt = q'.prompt ∧ q.options = q'.options

/-- Filtering a day and stripping answers is invariant under changing only
the answer_index fields. -/
theorem filter_strip_eq (dn : Int) (l l' : List Question)
    (h : List.Forall₂ sameButAnswer l l') :
    (l.filter (fun q => q.day_number == dn)).map stripAnswer =
      (l'.filter (fun q => q.day_number == dn)).map stripAnswer := by
  induction h with
  | nil => rfl
  | cons hab htail ih =>
    rename_i a b tl tl'
    obtain ⟨h1, h2, h3⟩ := hab
    simp only [List.filter_cons, h1]
    by_cases hd : (b.day_number == dn) = true
    · simp [hd, ih, stripAnswer, h1, h2, h3]
    · simp [hd, ih]

/-- Shape of submit_attempt when the day has no questions. -/
theorem submit_attempt_err (s : Store) (p : AttemptIn) (now : String)
    (h : (attemptQuestions s p.day_number).isEmpty = true) :
    submit_attempt s p now = (s, Except.error ⟨400, "No questions for this day"⟩) := by
  unfold submit_attempt
  simp [h]

/-- Shape of submit_attempt when the day has questions. -/
theorem submit_attempt_ok (s : Store) (p : AttemptIn) (now : String)
    (h : (attemptQuestions s p.day_number).isEmpty = false) :
    submit_attempt s p now =
      (maybeIssueCertificate
          (updateProgressIfPassed (recordAttempt s (attemptDoc s p))
            p.user_id p.day_number (passedOf s p))
          p.user_id now,
       Except.ok ⟨(attemptDoc s p).score, (attemptDoc s p).total, passedOf s p,
         (attemptDoc s p).flagged, p.violations⟩) := by
  unfold submit_attempt
  simp [h, attemptDoc]

/-- recordAttempt only touches the attempt collection. -/
theorem recordAttempt_frame (s : Store) (d : AttemptRec) :
    (recordAttempt s d).progress = s.progress ∧
    (recordAttempt s d).certificates = s.certificates ∧
    (recordAttempt s d).users = s.users ∧
    (recordAttempt s d).questions = s.questions :=
  ⟨rfl, rfl, rfl, rfl⟩

/-- updateProgressIfPassed only touches the progress collection. -/
theorem updateProgressIfPassed_frame (s : Store) (uid : String) (dn : Int) (b : Bool) :
    (updateProgressIfPassed s uid dn b).attempts = s.attempts ∧
    (updateProgressIfPassed s uid dn b).certificates = s.certificates ∧
    (updateProgressIfPassed s uid dn b).users = s.users ∧
    (updateProgressIfPassed s uid dn b).questions = s.questions := by
  unfold updateProgressIfPassed
  split
  · split
    · split <;> exact ⟨rfl, rfl, rfl, rfl⟩
    · exact ⟨rfl, rfl, rfl, rfl⟩
  · exact ⟨rfl, rfl, rfl, rfl⟩

/-- maybeIssueCertificate only touches the certificate collection. -/
theorem maybeIssueCertificate_frame (s : Store) (uid : String) (now : String) :
    (maybeIssueCertificate s uid now).attempts = s.attempts ∧
    (maybeIssueCertificate s uid now).progress = s.progress ∧
    (maybeIssueCertificate s uid now).users = s.users ∧
    (maybeIssueCertificate s uid now).questions = s.questions := by
  unfold maybeIssueCertificate
  split
  · split
    · split <;> exact ⟨rfl, rfl, rfl, rfl⟩
    · exact ⟨rfl, rfl, rfl, rfl⟩
  · exact ⟨rfl, rfl, rfl, rfl⟩

/-- The scoring loop equals the per-position count the spec describes:
positions `i` below both lengths whose submitted answer equals the i-th
question's answer_index. -/
theorem scoreAnswers_eq_countP (qs : List Question) (answers : List Int) :
    scoreAnswers qs answers =
      (List.range qs.length).countP (fun i =>
        decide (i < answers.length) &&
          (answers.getD i 0 == ((qs.getD i demoQ).answer_index : Int))) := by
  induction qs generalizing answers with
  | nil => simp [scoreAnswers]
  | cons q qt ih =>
    cases answers with
    | nil =>
      rw [scoreAnswers]
      rw [eq_comm]
      apply List.countP_eq_zero.mpr
      intro i _
      simp
    | cons a rest =>
      rw [scoreAnswers]
      simp only [List.length_cons]
      rw [List.range_succ_eq_map, List.countP_cons, List.countP_map]
      have hcongr : ((List.range qt.length).countP
          ((fun i =>
              decide (i < rest.length + 1) &&
                ((a :: rest).getD i 0 ==
                  (((q :: qt).getD i demoQ).answer_index : Int))) ∘ Nat.succ)) =
          ((List.range qt.length).countP (fun i =>
              decide (i < rest.length) &&
                (rest.getD i 0 == ((qt.getD i demoQ).answer_index : Int)))) := by
        apply List.countP_congr
        intro i _
        simp [Function.comp, Nat.succ_lt_succ_iff]
      rw [hcongr, ih rest]
      simp [Nat.add_comm]

/-- updateProgressIfPassed is the identity when the user has no progress
record. -/
theorem updateProgressIfPassed_none (s : Store) (uid : String) (dn : Int) (b : Bool)
    (h : s.progress.find? (fun pr => pr.user_id == uid) = none) :
    updateProgressIfPassed s uid dn b = s := by
  unfold updateProgressIfPassed
  simp only [h]
  split <;> rfl

/-- maybeIssueCertificate is the identity when the user has no progress
record. -/
theorem maybeIssueCertificate_none (s : Store) (uid : String) (now : String)
    (h : s.progress.find? (fun pr => pr.user_id == uid) = none) :
    maybeIssueCertificate s uid now = s := by
  unfold maybeIssueCertificate
  simp only [h]

/-- Case analysis of the certificate phase: either the collection is
untouched, or no certificate existed for the user, the re-read progress
counts at least 15 days, and exactly the freshly rendered certificate is
appended. -/
theorem maybeIssueCertificate_cases (s : Store) (uid : String) (now : String) :
    (maybeIssueCertificate s uid now).certificates = s.certificates ∨
    (s.certificates.find? (fun c => c.user_id == uid) = none ∧
      (∃ prog, s.progress.find? (fun pr => pr.user_id == uid) = some prog ∧
          15 ≤ prog.completed_days.length) ∧
      (maybeIssueCertificate s uid now).certificates =
        s.certificates ++
          [⟨uid, resolveCertName s uid, now,
            generate_certificate_svg (resolveCertName s uid) now⟩]) := by
  unfold maybeIssueCertificate
  split
  · rename_i prog hp
    by_cases h15 : prog.completed_days.length ≥ 15
    · rw [if_pos h15]
      split
      · left
        rfl
      · rename_i hc
        right
        exact ⟨hc, ⟨prog, hp, h15⟩, rfl⟩
    · rw [if_neg h15]
      left
      rfl
  · left
    rfl

/-- The certificate phase does create: when the re-read progress counts at
least 15 days and no certificate exists for the user, the freshly rendered
certificate is appended. -/
theorem maybeIssueCertificate_creates (s : Store) (uid : String) (now : String)
    (hprog : ∃ prog, s.progress.find? (fun pr => pr.user_id == uid) = some prog ∧
        15 ≤ prog.completed_days.length)
    (hnone : s.certificates.find? (fun c => c.user_id == uid) = none) :
    (maybeIssueCertificate s uid now).certificates =
      s.certificates ++
        [⟨uid, resolveCertName s uid, now,
          generate_certificate_svg (resolveCertName s uid) now⟩] := by
  obtain ⟨prog, hp, h15⟩ := hprog
  unfold maybeIssueCertificate
  simp only [hp]
  rw [if_pos h15]
  simp only [hnone]

/-- A no-certificate state shows up as an empty filtered list. -/
theorem certsFor_eq_nil_iff (s : Store) (uid : String) :
    certsFor s uid = [] ↔
      s.certificates.find? (fun c => c.user_id == uid) = none := by
  rw [certsFor, List.filter_eq_nil_iff, List.find?_eq_none]

/-- One POST /attempt call either leaves the user's certificates unchanged,
or starts from none, has re-read progress of at least 15 days, and ends with
exactly one. -/
theorem certsFor_step (s : Store) (p : AttemptIn) (now : String) (uid : String) :
    certsFor (stepStore s p now) uid = certsFor s uid ∨
    (certsFor s uid = [] ∧
      (∃ prog, (stepStore s p now).progress.find? (fun pr => pr.user_id == uid) =
          some prog ∧ 15 ≤ prog.completed_days.length) ∧
      ∃ c : CertificateRec, c.user_id = uid ∧
        certsFor (stepStore s p now) uid = [c]) := by
  by_cases he : (attemptQuestions s p.day_number).isEmpty
  · left
    unfold stepStore
    rw [submit_attempt_err s p now he]
  · have hstep : stepStore s p now =
        maybeIssueCertificate
          (updateProgressIfPassed (recordAttempt s (attemptDoc s p))
            p.user_id p.day_number (passedOf s p))
          p.user_id now := by
      unfold stepStore
      rw [submit_attempt_ok s p now (by simpa using he)]
    set s₂ := updateProgressIfPassed (recordAttempt s (attemptDoc s p))
        p.user_id p.day_number (passedOf s p) with hs₂
    have hc₂ : s₂.certificates = s.certificates :=
      (updateProgressIfPassed_frame _ _ _ _).2.1
    rcases maybeIssueCertificate_cases s₂ p.user_id now with hsame | ⟨hnone, hprog, happ⟩
    · left
      rw [hstep]
      unfold certsFor
      rw [hsame, hc₂]
    · by_cases huid : p.user_id = uid
      · right
        subst huid
        have hnil : certsFor s p.user_id = [] := by
          rw [certsFor_eq_nil_iff]
          rw [← hc₂]
          exact hnone
        refine ⟨hnil, ?_, ?_⟩
        · rw [hstep, (maybeIssueCertificate_frame _ _ _).2.1]
          exact hprog
        · refine ⟨⟨p.user_id, resolveCertName s₂ p.user_id, now,
              generate_certificate_svg (resolveCertName s₂ p.user_id) now⟩, rfl, ?_⟩
          rw [hstep]
          unfold certsFor
          rw [happ, List.filter_append, hc₂]
          rw [certsFor_eq_nil_iff] at hnil
          rw [show (s.certificates.filter (fun c => c.user_id == p.user_id)) = [] from by
                rw [List.filter_eq_nil_iff, ← List.find?_eq_none]
                rw [← hc₂]
                exact hnone]
          simp
      · left
        rw [hstep]
        unfold certsFor
        rw [happ, List.filter_append, hc₂]
        have : ([(⟨p.user_id, resolveCertName s₂ p.user_id, now,
            generate_certificate_svg (resolveCertName s₂ p.user_id) now⟩ :
              CertificateRec)].filter (fun c => c.user_id == uid)) = [] := by
          simp [huid]
        rw [this, List.append_nil]

/-- Per-user certificate count is preserved below 2 by every call. -/
theorem certsFor_length_step (s : Store) (p : AttemptIn) (now : String) (uid : String)
    (h : (certsFor s uid).length ≤ 1) :
    (certsFor (stepStore s p now) uid).length ≤ 1 := by
  rcases certsFor_step s p now uid with hl | ⟨_, _, c, _, heq⟩
  · rw [hl]
    exact h
  · rw [heq]
    exact le_refl 1

/-- Per-user certificate count stays below 2 across any call sequence. -/
theorem certsFor_length_run (s : Store) (uid : String)
    (calls : List (AttemptIn × String)) (h : (certsFor s uid).length ≤ 1) :
    (certsFor (runAll s calls) uid).length ≤ 1 := by
  induction calls generalizing s with
  | nil => exact h
  | cons c rest ih => exact ih _ (certsFor_length_step _ _ _ _ h)

/-- Every record of the updated progress list is an old record or carries the
newly written completed_days list. -/
theorem mem_setCompletedFirst (l : List ProgressRec) (uid : String) (cds : List Int) :
    ∀ pr ∈ setCompletedFirst l uid cds, pr ∈ l ∨ pr.completed_days = cds := by
  induction l with
  | nil =>
    intro pr h
    cases h
  | cons x xs ih =>
    intro pr h
    unfold setCompletedFirst at h
    by_cases hx : (x.user_id == uid) = true
    · rw [if_pos hx] at h
      rcases List.mem_cons.mp h with h1 | h2
      · right
        rw [h1]
      · left
        exact List.mem_cons_of_mem _ h2
    · rw [if_neg hx] at h
      rcases List.mem_cons.mp h with h1 | h2
      · left
        rw [h1]
        exact List.mem_cons_self _ _
      · rcases ih pr h2 with ha | hb
        · left
          exact List.mem_cons_of_mem _ ha
        · right
          exact hb

/-- The progress-update phase preserves duplicate-freeness of every
completed_days list. -/
theorem updateProgressIfPassed_nodup (s : Store) (uid : String) (dn : Int) (b : Bool)
    (h : ∀ pr ∈ s.progress, pr.completed_days.Nodup) :
    ∀ pr ∈ (updateProgressIfPassed s uid dn b).progress, pr.completed_days.Nodup := by
  unfold updateProgressIfPassed
  split
  · split
    · rename_i prog hf
      split
      · exact h
      · rename_i hmem
        intro pr hpr
        have hnew : (prog.completed_days ++ [dn]).Nodup := by
          refine List.Nodup.append (h prog (List.mem_of_find?_eq_some hf))
            (List.nodup_singleton dn) ?_
          intro a ha hb
          rw [List.mem_singleton] at hb
          subst hb
          exact hmem ha
        rcases mem_setCompletedFirst s.progress uid (prog.completed_days ++ [dn]) pr hpr
          with hold | hcds
        · exact h pr hold
        · rw [hcds]
          exact hnew
    · exact h
  · exact h

/-- One POST /attempt call preserves duplicate-freeness of every progress
record. -/
theorem nodup_step (s : Store) (p : AttemptIn) (now : String)
    (h : ∀ pr ∈ s.progress, pr.completed_days.Nodup) :
    ∀ pr ∈ (stepStore s p now).progress, pr.completed_days.Nodup := by
  by_cases he : (attemptQuestions s p.day_number).isEmpty
  · unfold stepStore
    rw [submit_attempt_err s p now he]
    exact h
  · unfold stepStore
    rw [submit_attempt_ok s p now (by simpa using he)]
    intro pr hpr
    rw [show (maybeIssueCertificate
          (updateProgressIfPassed (recordAttempt s (attemptDoc s p))
            p.user_id p.day_number (passedOf s p)) p.user_id now,
        Except.ok (⟨(attemptDoc s p).score, (attemptDoc s p).total, passedOf s p,
          (attemptDoc s p).flagged, p.violations⟩ : AttemptOut)).1.progress =
        (updateProgressIfPassed (recordAttempt s (attemptDoc s p))
          p.user_id p.day_number (passedOf s p)).progress from
        (maybeIssueCertificate_frame _ _ _).2.1] at hpr
    exact updateProgressIfPassed_nodup (recordAttempt s (attemptDoc s p))
      p.user_id p.day_number (passedOf s p) h pr hpr

/-- Duplicate-freeness of every progress record is preserved across any call
sequence. -/
theorem nodup_run (s : Store) (calls : List (AttemptIn × String))
    (h : ∀ pr ∈ s.progress, pr.completed_days.Nodup) :
    ∀ pr ∈ (runAll s calls).progress, pr.completed_days.Nodup := by
  induction calls generalizing s with
  | nil => exact h
  | cons c rest ih => exact ih _ (nodup_step _ _ _ h)

/-! ### Claim theorems -/

/-- Claim C5: getQuiz fails with NotFound (404) if and only if no questions
exist for the day; otherwise it returns all of the day's questions with
`answer_index` stripped, and the successful response is identical for any
two stores whose question lists differ only in answer_index values. -/
theorem getQuiz_contract (s : Store) (dn : Int) :
    ((∃ e, get_quiz s dn = Except.error e) ↔
        s.questions.filter (fun q => q.day_number == dn) = []) ∧
    (∀ e, get_quiz s dn = Except.error e → e.status_code = 404) ∧
    (∀ out, get_quiz s dn = Except.ok out →
        out = ⟨dn, (s.questions.filter (fun q => q.day_number == dn)).map stripAnswer⟩) ∧
    (∀ s₂ : Store, List.Forall₂ sameButAnswer s.questions s₂.questions →
        get_quiz s dn = get_quiz s₂ dn) := by
  refine ⟨?_, ?_, ?_, ?_⟩
  · unfold get_quiz
    by_cases he : (s.questions.filter (fun q => q.day_number == dn)).isEmpty
    · simpa [he] using List.isEmpty_iff.mp he
    · simp only [he]
      simp only [List.isEmpty_iff] at he
      simp [he]
  · intro e h
    unfold get_quiz at h
    by_cases he : (s.questions.filter (fun q => q.day_number == dn)).isEmpty
    · simp only [he, if_true] at h
      cases h
      rfl
    · simp [he] at h
  · intro out h
    unfold get_quiz at h
    by_cases he : (s.questions.filter (fun q => q.day_number == dn)).isEmpty
    · simp [he] at h
    · simp only [he, if_false, Bool.false_eq_true] at h
      cases h
      rfl
  · intro s₂ hrel
    have hmap := filter_strip_eq dn s.questions s₂.questions hrel
    have hlen : (s.questions.filter (fun q => q.day_number == dn)).length =
        (s₂.questions.filter (fun q => q.day_number == dn)).length := by
      simpa using congrArg List.length hmap
    unfold get_quiz
    by_cases he : (s.questions.filter (fun q => q.day_number == dn)).isEmpty
    · have he₂ : (s₂.questions.filter (fun q => q.day_number == dn)).isEmpty := by
        rw [List.isEmpty_iff, ← List.length_eq_zero] at he ⊢
        omega
      simp [he, he₂]
    · have he₂ : ¬ (s₂.questions.filter (fun q => q.day_number == dn)).isEmpty := by
        rw [List.isEmpty_iff, ← List.length_eq_zero] at he ⊢
        omega
      simp [he, he₂, hmap]

/-- Witness for C5 at a concrete store: day 1 has a quiz (with answers
stripped) and day 2 has none. -/
theorem getQuiz_contract_witness :
    get_quiz demoStore 1 = Except.ok ⟨1, [⟨1, "Q1", ["A", "B"]⟩]⟩ ∧
    (∀ e, get_quiz demoStore 2 = Except.error e → e.status_code = 404) :=
  ⟨(getQuiz_contract demoStore 1).2.2.1 ⟨1, [⟨1, "Q1", ["A", "B"]⟩]⟩ rfl ▸ rfl,
   (getQuiz_contract demoStore 2).2.1⟩

/-- Claim C9: getProgress never fails; it returns the stored Progress record
when one exists, and the default record with empty completed_days otherwise. -/
theorem getProgress_never_fails (s : Store) (uid : String) :
    (∀ pr, s.progress.find? (fun q => q.user_id == uid) = some pr →
        get_progress s uid = pr) ∧
    (s.progress.find? (fun q => q.user_id == uid) = none →
        get_progress s uid = ⟨uid, []⟩) := by
  constructor
  · intro pr h
    simp [get_progress, h]
  · intro h
    simp [get_progress, h]

/-- Witness for C9: the stored record is returned for the registered user
and the empty default for an unknown one. -/
theorem getProgress_never_fails_witness :
    demoStore.progress.find? (fun q => q.user_id == "0") = some ⟨"0", []⟩ ∧
    get_progress demoStore "0" = ⟨"0", []⟩ ∧
    demoStore.progress.find? (fun q => q.user_id == "nobody") = none ∧
    get_progress demoStore "nobody" = ⟨"nobody", []⟩ :=
  ⟨by decide,
   (getProgress_never_fails demoStore "0").1 ⟨"0", []⟩ (by decide),
   by decide,
   (getProgress_never_fails demoStore "nobody").2 (by decide)⟩

/-- Claim C7: createOrGetUser is idempotent in the email: a first call with a
fresh email appends one user and one empty Progress record and returns its
identity; a second call with the same email (whatever name it carries)
changes nothing and returns the same id with the stored name. -/
theorem createOrGetUser_idempotent (s : Store) (name email name₂ : String)
    (hfresh : ∀ u ∈ s.users, u.email ≠ email) :
    ∃ uid : Nat,
      (create_or_get_user s name email).1.users = s.users ++ [⟨uid, name, email⟩] ∧
      (create_or_get_user s name email).1.progress = s.progress ++ [⟨toString uid, []⟩] ∧
      (create_or_get_user s name email).2 = ⟨toString uid, name, email⟩ ∧
      create_or_get_user (create_or_get_user s name email).1 name₂ email =
        ((create_or_get_user s name email).1, ⟨toString uid, name, email⟩) := by
  have hnone : s.users.find? (fun u => u.email == email) = none := by
    rw [List.find?_eq_none]
    intro u hu
    simpa using hfresh u hu
  refine ⟨s.nextId, ?_, ?_, ?_, ?_⟩
  · simp [create_or_get_user, hnone]
  · simp [create_or_get_user, hnone]
  · simp [create_or_get_user, hnone]
  · simp [create_or_get_user, hnone, List.find?_append]

/-- Witness for C7 at the demo store with a fresh email. -/
theorem createOrGetUser_idempotent_witness :
    (∀ u ∈ demoStore.users, u.email ≠ "bob@example.com") ∧
    ∃ uid : Nat,
      (create_or_get_user demoStore "Bob" "bob@example.com").1.users =
        demoStore.users ++ [⟨uid, "Bob", "bob@example.com"⟩] ∧
      (create_or_get_user demoStore "Bob" "bob@example.com").1.progress =
        demoStore.progress ++ [⟨toString uid, []⟩] ∧
      (create_or_get_user demoStore "Bob" "bob@example.com").2 =
        ⟨toString uid, "Bob", "bob@example.com"⟩ ∧
      create_or_get_user (create_or_get_user demoStore "Bob" "bob@example.com").1
          "Robert" "bob@example.com" =
        ((create_or_get_user demoStore "Bob" "bob@example.com").1,
         ⟨toString uid, "Bob", "bob@example.com"⟩) :=
  ⟨by decide,
   createOrGetUser_idempotent demoStore "Bob" "bob@example.com" "Robert" (by decide)⟩

/-- Claim C6: seeding is idempotent — any number of invocations starting from
the empty store equals a single one, which yields exactly 3 modules, 15 days
and 75 questions, and every day's five answer_index values cycle
[0, 1, 2, 3, 0]. -/
theorem seed_idempotent (n : Nat) :
    seed_data^[n + 1] emptyStore = seed_data emptyStore ∧
    (seed_data emptyStore).modules.length = 3 ∧
    (seed_data emptyStore).days.length = 15 ∧
    (seed_data emptyStore).questions.length = 75 ∧
    (∀ d : Int, 1 ≤ d → d ≤ 15 →
        ((seed_data emptyStore).questions.filter (fun q => q.day_number == d)).map
            (fun q => q.answer_index) = [0, 1, 2, 3, 0]) := by
  refine ⟨?_, by rfl, by rfl, by rfl, ?_⟩
  · have hfix : seed_data (seed_data emptyStore) = seed_data emptyStore := by rfl
    rw [Function.iterate_succ_apply, Function.iterate_fixed hfix n]
  · intro d h1 h15
    interval_cases d <;> decide

/-- Claim C1: a submission against a day with at least one question returns
total = number of stored questions for the day, score = the count of
positions i with i below the answers length whose answer matches the i-th
question's answer_index (extra or missing positions ignored),
flagged = violations > 0, and passed = (score / total ≥ 0.6 AND NOT
flagged); in particular any positive violation count forces passed = false. -/
theorem submitAttempt_scoring (s : Store) (p : AttemptIn) (now : String)
    (h : attemptQuestions s p.day_number ≠ []) :
    ∃ r : AttemptOut, (submit_attempt s p now).2 = Except.ok r ∧
      r.total = (attemptQuestions s p.day_number).length ∧
      r.score = (List.range (attemptQuestions s p.day_number).length).countP
          (fun i => decide (i < p.answers.length) &&
            (p.answers.getD i 0 ==
              (((attemptQuestions s p.day_number).getD i demoQ).answer_index : Int))) ∧
      r.flagged = decide (p.violations > 0) ∧
      (r.passed = true ↔
          ((r.score : ℚ) / (r.total : ℚ) ≥ (0.6 : ℚ) ∧ r.flagged = false)) ∧
      (0 < p.violations → r.passed = false) := by
  have he : (attemptQuestions s p.day_number).isEmpty = false := by
    simpa [List.isEmpty_iff] using h
  refine ⟨⟨(attemptDoc s p).score, (attemptDoc s p).total, passedOf s p,
      (attemptDoc s p).flagged, p.violations⟩, ?_, rfl, ?_, rfl, ?_, ?_⟩
  · rw [submit_attempt_ok s p now he]
  · exact scoreAnswers_eq_countP _ _
  · show passedOf s p = true ↔ _
    unfold passedOf
    rw [Bool.and_eq_true, decide_eq_true_iff, Bool.not_eq_true', decide_eq_false_iff_not]
    show _ ↔ _ ∧ decide (p.violations > 0) = false
    rw [decide_eq_false_iff_not]
    exact Iff.rfl
  · intro hv
    show passedOf s p = false
    unfold passedOf
    simp only [Bool.and_eq_false_iff]
    right
    simpa using hv

/-- Witness for C1 at the demo store: one question, a perfect answer. -/
theorem submitAttempt_scoring_witness :
    attemptQuestions demoStore 1 ≠ [] ∧
    ∃ r : AptLearn.AttemptOut,
      (submit_attempt demoStore ⟨"0", 1, [0], 0⟩ "t").2 = Except.ok r ∧
      r.total = (attemptQuestions demoStore 1).length ∧
      r.score = (List.range (attemptQuestions demoStore 1).length).countP
          (fun i => decide (i < ([(0 : Int)]).length) &&
            (([(0 : Int)]).getD i 0 ==
              (((attemptQuestions demoStore 1).getD i demoQ).answer_index : Int))) ∧
      r.flagged = decide ((0 : Int) > 0) ∧
      (r.passed = true ↔
          ((r.score : ℚ) / (r.total : ℚ) ≥ (0.6 : ℚ) ∧ r.flagged = false)) ∧
      (0 < (0 : Int) → r.passed = false) :=
  ⟨by decide, submitAttempt_scoring demoStore ⟨"0", 1, [0], 0⟩ "t" (by decide)⟩

/-- Claim C4: submit_attempt fails if and only if the day has no questions,
the failure is a 400 BadRequest (not a 404) and leaves the store untouched;
every successful submission appends exactly one attempt record. -/
theorem submitAttempt_error_contract (s : Store) (p : AttemptIn) (now : String) :
    ((∃ e, (submit_attempt s p now).2 = Except.error e) ↔
        attemptQuestions s p.day_number = []) ∧
    (∀ e, (submit_attempt s p now).2 = Except.error e →
        e.status_code = 400 ∧ e.status_code ≠ 404 ∧ (submit_attempt s p now).1 = s) ∧
    (∀ r, (submit_attempt s p now).2 = Except.ok r →
        (submit_attempt s p now).1.attempts = s.attempts ++ [attemptDoc s p]) := by
  by_cases he : (attemptQuestions s p.day_number).isEmpty
  · rw [submit_attempt_err s p now he]
    refine ⟨?_, ?_, ?_⟩
    · simpa using List.isEmpty_iff.mp he
    · intro e hh
      cases hh
      exact ⟨rfl, by decide, rfl⟩
    · intro r hh
      cases hh
  · rw [submit_attempt_ok s p now (by simpa using he)]
    refine ⟨?_, ?_, ?_⟩
    · constructor
      · rintro ⟨e, hh⟩
        cases hh
      · intro hh
        exact absurd (by simpa [List.isEmpty_iff] using hh) he
    · intro e hh
      cases hh
    · intro r hh
      rw [(maybeIssueCertificate_frame _ _ _).1,
        (updateProgressIfPassed_frame _ _ _ _).1]
      rfl

/-- Witness for C4: day 2 has no questions so the call 400s and leaves the
demo store unchanged; day 1 succeeds and appends one attempt record. -/
theorem submitAttempt_error_contract_witness :
    ((⟨400, "No questions for this day"⟩ : HTTPError).status_code = 400 ∧
      (⟨400, "No questions for this day"⟩ : HTTPError).status_code ≠ 404 ∧
      (submit_attempt demoStore ⟨"0", 2, [], 0⟩ "t").1 = demoStore) ∧
    (submit_attempt demoStore ⟨"0", 1, [0], 0⟩ "t").1.attempts =
      demoStore.attempts ++ [attemptDoc demoStore ⟨"0", 1, [0], 0⟩] :=
  ⟨(submitAttempt_error_contract demoStore ⟨"0", 2, [], 0⟩ "t").2.1
      ⟨400, "No questions for this day"⟩ rfl,
   (submitAttempt_error_contract demoStore ⟨"0", 1, [0], 0⟩ "t").2.2
      ⟨1, 1, passedOf demoStore ⟨"0", 1, [0], 0⟩, false, 0⟩ rfl⟩

/-- Claim C2: a certificate is created only by a call that finds re-read
progress of at least 15 completed days while no certificate exists for the
user; a call that does find such progress with no existing certificate
really does create exactly one; a call that finds an existing certificate
changes nothing; and across any sequence of submitAttempt calls starting
with no certificate at most one record for the user ever exists. -/
theorem certificate_at_most_once (s : Store) (p : AttemptIn) (now : String)
    (uid : String) (calls : List (AttemptIn × String))
    (h0 : certsFor s uid = []) :
    (certsFor (stepStore s p now) uid = certsFor s uid ∨
      (certsFor s uid = [] ∧
        (∃ prog, (stepStore s p now).progress.find? (fun pr => pr.user_id == uid) =
            some prog ∧ 15 ≤ prog.completed_days.length) ∧
        ∃ c : CertificateRec, c.user_id = uid ∧
          certsFor (stepStore s p now) uid = [c])) ∧
    (∀ s' : Store, certsFor s' uid ≠ [] →
        certsFor (stepStore s' p now) uid = certsFor s' uid) ∧
    (attemptQuestions s p.day_number ≠ [] →
      certsFor s p.user_id = [] →
      (∃ prog, (stepStore s p now).progress.find? (fun pr => pr.user_id == p.user_id) =
          some prog ∧ 15 ≤ prog.completed_days.length) →
      ∃ c : CertificateRec, c.user_id = p.user_id ∧
        certsFor (stepStore s p now) p.user_id = [c]) ∧
    (certsFor (runAll s calls) uid).length ≤ 1 := by
  refine ⟨certsFor_step s p now uid, ?_, ?_, ?_⟩
  · intro s' hne
    rcases certsFor_step s' p now uid with hl | ⟨hnil, _, _⟩
    · exact hl
    · exact absurd hnil hne
  · intro hq hnil hex
    have hstep : stepStore s p now =
        maybeIssueCertificate
          (updateProgressIfPassed (recordAttempt s (attemptDoc s p))
            p.user_id p.day_number (passedOf s p))
          p.user_id now := by
      unfold stepStore
      rw [submit_attempt_ok s p now (by simpa [List.isEmpty_iff] using hq)]
    set s₂ := updateProgressIfPassed (recordAttempt s (attemptDoc s p))
        p.user_id p.day_number (passedOf s p) with hs₂
    have hc₂ : s₂.certificates = s.certificates :=
      (updateProgressIfPassed_frame _ _ _ _).2.1
    have hnone : s₂.certificates.find? (fun c => c.user_id == p.user_id) = none := by
      rw [hc₂]
      exact (certsFor_eq_nil_iff s p.user_id).mp hnil
    rw [hstep, (maybeIssueCertificate_frame s₂ p.user_id now).2.1] at hex
    have happ := maybeIssueCertificate_creates s₂ p.user_id now hex hnone
    refine ⟨⟨p.user_id, resolveCertName s₂ p.user_id, now,
        generate_certificate_svg (resolveCertName s₂ p.user_id) now⟩, rfl, ?_⟩
    rw [hstep]
    unfold certsFor
    rw [happ, List.filter_append, hc₂]
    rw [show s.certificates.filter (fun c => c.user_id == p.user_id) = [] from hnil]
    simp
  · exact certsFor_length_run s uid calls (by rw [h0]; exact Nat.zero_le 1)

/-- Store one passing day-15 attempt away from the certificate: days 1-14
complete, a day-15 question seeded, no certificate yet. -/
def demoStoreAlmost : Store :=
  ⟨[], [], [⟨15, "Q15", ["A", "B"], 0⟩], [⟨0, "Alice", "alice@example.com"⟩],
   [⟨"0", [1, 2, 3, 4, 5, 6, 7, 8, 9, 10, 11, 12, 13, 14]⟩], [], [], 1⟩

/-- Witness for C2: a passing day-15 submission against demoStoreAlmost
really creates exactly one certificate, and repeating it keeps the count at
one. -/
theorem certificate_at_most_once_witness :
    certsFor demoStoreAlmost "0" = [] ∧
    attemptQuestions demoStoreAlmost 15 ≠ [] ∧
    (∃ prog, (stepStore demoStoreAlmost ⟨"0", 15, [0], 0⟩ "t").progress.find?
        (fun pr => pr.user_id == "0") = some prog ∧
        15 ≤ prog.completed_days.length) ∧
    (∃ c : CertificateRec, c.user_id = "0" ∧
        certsFor (stepStore demoStoreAlmost ⟨"0", 15, [0], 0⟩ "t") "0" = [c]) ∧
    (certsFor (runAll demoStoreAlmost
        [(⟨"0", 15, [0], 0⟩, "t"), (⟨"0", 15, [0], 0⟩, "u")]) "0").length ≤ 1 := by
  have hpass : passedOf demoStoreAlmost ⟨"0", 15, [0], 0⟩ = true := by
    rw [passedOf_eq]
    decide
  have hex : ∃ prog,
      (stepStore demoStoreAlmost ⟨"0", 15, [0], 0⟩ "t").progress.find?
        (fun pr => pr.user_id == "0") = some prog ∧
      15 ≤ prog.completed_days.length := by
    refine ⟨⟨"0", [1, 2, 3, 4, 5, 6, 7, 8, 9, 10, 11, 12, 13, 14, 15]⟩, ?_, by decide⟩
    unfold stepStore
    rw [submit_attempt_ok demoStoreAlmost ⟨"0", 15, [0], 0⟩ "t" (by decide), hpass]
    decide
  refine ⟨by decide, by decide, hex, ?_, ?_⟩
  · exact (certificate_at_most_once demoStoreAlmost ⟨"0", 15, [0], 0⟩ "t" "0"
      [(⟨"0", 15, [0], 0⟩, "t"), (⟨"0", 15, [0], 0⟩, "u")] (by decide)).2.2.1
      (by decide) (by decide) hex
  · exact (certificate_at_most_once demoStoreAlmost ⟨"0", 15, [0], 0⟩ "t" "0"
      [(⟨"0", 15, [0], 0⟩, "t"), (⟨"0", 15, [0], 0⟩, "u")] (by decide)).2.2.2

/-- Claim C3: starting from progress records whose completed_days are
duplicate-free (such as the empty list created at registration), any
sequence of submitAttempt calls leaves every completed_days list
duplicate-free — in particular each day number occurs at most once. -/
theorem completedDays_nodup (s : Store) (calls : List (AttemptIn × String))
    (h : ∀ pr ∈ s.progress, pr.completed_days.Nodup) :
    (∀ pr ∈ (runAll s calls).progress, pr.completed_days.Nodup) ∧
    (∀ pr ∈ (runAll s calls).progress, ∀ d : Int, pr.completed_days.count d ≤ 1) := by
  refine ⟨nodup_run s calls h, ?_⟩
  intro pr hpr d
  exact List.nodup_iff_count_le_one.mp (nodup_run s calls h pr hpr) d

/-- Witness for C3: two passing submissions of day 1 by the registered demo
user leave its completed_days duplicate-free. -/
theorem completedDays_nodup_witness :
    (∀ pr ∈ demoStore.progress, pr.completed_days.Nodup) ∧
    ((∀ pr ∈ (runAll demoStore
          [(⟨"0", 1, [0], 0⟩, "t"), (⟨"0", 1, [0], 0⟩, "u")]).progress,
        pr.completed_days.Nodup) ∧
      (∀ pr ∈ (runAll demoStore
          [(⟨"0", 1, [0], 0⟩, "t"), (⟨"0", 1, [0], 0⟩, "u")]).progress,
        ∀ d : Int, pr.completed_days.count d ≤ 1)) :=
  ⟨by decide,
   completedDays_nodup demoStore
     [(⟨"0", 1, [0], 0⟩, "t"), (⟨"0", 1, [0], 0⟩, "u")] (by decide)⟩

/-- Claim C10: a passing submission by a user_id with no Progress record is
still recorded as an attempt and reported as passed, but neither creates a
progress record nor issues a certificate — the pass is silently untracked. -/
theorem unregistered_pass_not_tracked (s : Store) (p : AttemptIn) (now : String)
    (hq : attemptQuestions s p.day_number ≠ [])
    (hnp : s.progress.find? (fun pr => pr.user_id == p.user_id) = none)
    (hpass : passedOf s p = true) :
    (∀ r, (submit_attempt s p now).2 = Except.ok r → r.passed = true) ∧
    (∃ r, (submit_attempt s p now).2 = Except.ok r) ∧
    (submit_attempt s p now).1.attempts = s.attempts ++ [attemptDoc s p] ∧
    (submit_attempt s p now).1.progress = s.progress ∧
    (submit_attempt s p now).1.certificates = s.certificates := by
  have he : (attemptQuestions s p.day_number).isEmpty = false := by
    simpa [List.isEmpty_iff] using hq
  have hs1 : (recordAttempt s (attemptDoc s p)).progress = s.progress := rfl
  have hup : updateProgressIfPassed (recordAttempt s (attemptDoc s p))
      p.user_id p.day_number (passedOf s p) = recordAttempt s (attemptDoc s p) :=
    updateProgressIfPassed_none _ _ _ _ (by rw [hs1]; exact hnp)
  have hmc : maybeIssueCertificate (recordAttempt s (attemptDoc s p))
      p.user_id now = recordAttempt s (attemptDoc s p) :=
    maybeIssueCertificate_none _ _ _ (by rw [hs1]; exact hnp)
  rw [submit_attempt_ok s p now he]
  refine ⟨?_, ?_, ?_, ?_, ?_⟩
  · intro r hr
    cases hr
    exact hpass
  · exact ⟨_, rfl⟩
  · rw [hup, hmc]
    rfl
  · rw [hup, hmc]
    rfl
  · rw [hup, hmc]
    rfl

/-- Witness for C10: a perfect passing answer from the unregistered user id
"u" against the store that has no progress records. -/
theorem unregistered_pass_not_tracked_witness :
    attemptQuestions demoStoreNoProg 1 ≠ [] ∧
    demoStoreNoProg.progress.find? (fun pr => pr.user_id == "u") = none ∧
    passedOf demoStoreNoProg ⟨"u", 1, [0], 0⟩ = true ∧
    ((∀ r, (submit_attempt demoStoreNoProg ⟨"u", 1, [0], 0⟩ "t").2 = Except.ok r →
        r.passed = true) ∧
      (∃ r, (submit_attempt demoStoreNoProg ⟨"u", 1, [0], 0⟩ "t").2 = Except.ok r) ∧
      (submit_attempt demoStoreNoProg ⟨"u", 1, [0], 0⟩ "t").1.attempts =
        demoStoreNoProg.attempts ++ [attemptDoc demoStoreNoProg ⟨"u", 1, [0], 0⟩] ∧
      (submit_attempt demoStoreNoProg ⟨"u", 1, [0], 0⟩ "t").1.progress =
        demoStoreNoProg.progress ∧
      (submit_attempt demoStoreNoProg ⟨"u", 1, [0], 0⟩ "t").1.certificates =
        demoStoreNoProg.certificates) :=
  ⟨by decide, by decide, by rw [passedOf_eq]; decide,
   unregistered_pass_not_tracked demoStoreNoProg ⟨"u", 1, [0], 0⟩ "t"
     (by decide) (by decide) (by rw [passedOf_eq]; decide)⟩

/-- Store exhibiting the C8 counterexample: the qualifying user's stored
name is the empty string, so Python's `user_doc.get("name")` is falsy. -/
def cexStore : Store :=
  ⟨[], [], [], [⟨0, "", "x@y"⟩],
   [⟨"0", [1, 2, 3, 4, 5, 6, 7, 8, 9, 10, 11, 12, 13, 14, 15]⟩], [], [], 1⟩

/-- Counterexample to C8 as stated: the identity lookup for user "0"
succeeds and the stored name is "", yet the certificate issued to this user
carries "Participant", not the stored name. -/
theorem certName_lookup_success_cex :
    parseObjectId "0" = some 0 ∧
    cexStore.users.find? (fun u => u.id == 0) = some ⟨0, "", "x@y"⟩ ∧
    ((maybeIssueCertificate cexStore "0" "t").certificates.map (fun c => c.name)) =
      ["Participant"] ∧
    resolveCertName cexStore "0" ≠ "" := by
  refine ⟨by decide, by decide, by decide, by decide⟩

/-- Claim C8 (amended): every newly issued certificate carries
resolveCertName; that name is the user's stored name when the id parses and
the identity lookup finds a user with a non-empty stored name; when parsing
raises it is the non-empty name of an arbitrary user record (all records
possess an email field); and in every remaining case — user not found,
stored name empty, or no user record at all — it is the literal
"Participant". -/
theorem certName_resolution (s : Store) (uid : String) (now : String) :
    (∀ c ∈ (maybeIssueCertificate s uid now).certificates,
        c ∉ s.certificates → c.name = resolveCertName s uid) ∧
    (∀ oid u, parseObjectId uid = some oid →
        s.users.find? (fun v => v.id == oid) = some u → u.name ≠ "" →
        resolveCertName s uid = u.name) ∧
    (∀ u, parseObjectId uid = none →
        s.users.find? (fun _ => true) = some u → u.name ≠ "" →
        resolveCertName s uid = u.name) ∧
    (parseObjectId uid = none → s.users.find? (fun _ => true) = none →
        resolveCertName s uid = "Participant") ∧
    (∀ oid, parseObjectId uid = some oid →
        s.users.find? (fun v => v.id == oid) = none →
        resolveCertName s uid = "Participant") ∧
    (∀ oid u, parseObjectId uid = some oid →
        s.users.find? (fun v => v.id == oid) = some u → u.name = "" →
        resolveCertName s uid = "Participant") ∧
    (∀ u, parseObjectId uid = none →
        s.users.find? (fun _ => true) = some u → u.name = "" →
        resolveCertName s uid = "Participant") := by
  refine ⟨?_, ?_, ?_, ?_, ?_, ?_, ?_⟩
  · intro c hc hnew
    rcases maybeIssueCertificate_cases s uid now with hsame | ⟨_, _, happ⟩
    · rw [hsame] at hc
      exact absurd hc hnew
    · rw [happ] at hc
      rcases List.mem_append.mp hc with hold | hlast
      · exact absurd hold hnew
      · rw [List.mem_singleton] at hlast
        rw [hlast]
  · intro oid u hp hf hn
    unfold resolveCertName
    simp only [hp, hf]
    rw [if_pos hn]
  · intro u hp hf hn
    unfold resolveCertName
    simp only [hp, hf]
    rw [if_pos hn]
  · intro hp hf
    unfold resolveCertName
    simp only [hp, hf]
  · intro oid hp hf
    unfold resolveCertName
    simp only [hp, hf]
  · intro oid u hp hf hn
    unfold resolveCertName
    simp only [hp, hf]
    rw [if_neg (by simp [hn])]
  · intro u hp hf hn
    unfold resolveCertName
    simp only [hp, hf]
    rw [if_neg (by simp [hn])]

/-- Witness for the amended C8: the demo user's id "0" resolves to its
stored non-empty name, an unparseable id falls back to the first stored
user's name, and an unparseable id whose fallback record carries an empty
name yields "Participant". -/
theorem certName_resolution_witness :
    parseObjectId "0" = some 0 ∧
    demoStore.users.find? (fun v => v.id == 0) = some demoUser ∧
    demoUser.name ≠ "" ∧
    resolveCertName demoStore "0" = demoUser.name ∧
    parseObjectId "zz" = none ∧
    demoStore.users.find? (fun _ => true) = some demoUser ∧
    resolveCertName demoStore "zz" = demoUser.name ∧
    cexStore.users.find? (fun _ => true) = some ⟨0, "", "x@y"⟩ ∧
    resolveCertName cexStore "zz" = "Participant" :=
  ⟨by decide, by decide, by decide,
   (certName_resolution demoStore "0" "t").2.1 0 demoUser (by decide) (by decide)
     (by decide),
   by decide, by decide,
   (certName_resolution demoStore "zz" "t").2.2.1 demoUser (by decide) (by decide)
     (by decide),
   by decide,
   (certName_resolution cexStore "zz" "t").2.2.2.2.2.2 ⟨0, "", "x@y"⟩ (by decide)
     (by decide) (by decide)⟩

/-- Witness for C6: the double seed is a single seed, and day 7's answers
cycle [0, 1, 2, 3, 0]. -/
theorem seed_idempotent_witness :
    seed_data^[2] emptyStore = seed_data emptyStore ∧
    (1 : Int) ≤ 7 ∧ (7 : Int) ≤ 15 ∧
    ((seed_data emptyStore).questions.filter (fun q => q.day_number == (7 : Int))).map
        (fun q => q.answer_index) = [0, 1, 2, 3, 0] :=
  ⟨(seed_idempotent 1).1, by decide, by decide,
   (seed_idempotent 0).2.2.2.2 7 (by decide) (by decide)⟩

end AptLearn
